import Mathlib

/-!
Verification development for the Hik-Camera-Server repository.

The file embeds the two source layers the claims are about:

* `database.js` — the SQLite-backed event store: the `events` table schema,
  `insertEvent`, `getAllEvents` (dynamic `WHERE` / `ORDER BY dateTime DESC` /
  `LIMIT` construction) and `getEventStats` (the four aggregates).
* the express server (`app.get('/')` dashboard handler, the multer upload
  configuration, and the `app.post(['/', '/hik'])` ingestion handler).

SQL queries are embedded by their SQLite semantics: rows are a Lean list,
`WHERE` is `List.filter`, `LIKE` is a character matcher with SQLite's default
ASCII case folding, `ORDER BY` with ties is a *relation* (SQLite leaves the
order of equal keys unspecified, so a query outcome is any dateTime-sorted
permutation of the filtered rows), and `LIMIT` is `List.take`.  JavaScript
truthiness tests on possibly-undefined request values are embedded explicitly.
-/

namespace HikCam

/-- Row of the `events` table created by `initializeDatabase` in `database.js`:
auto-incremented integer id, the four required TEXT columns, five optional TEXT
columns, three nullable attachment-filename columns, and the server-assigned
`created_at` timestamp. -/
structure Event where
  id : Nat
  channelID : String
  dateTime : String
  eventType : String
  country : Option String
  licensePlate : String
  lane : Option String
  direction : Option String
  confidenceLevel : Option String
  macAddress : Option String
  licensePlateImage : Option String
  vehicleImage : Option String
  detectionImage : Option String
  createdAt : String
deriving DecidableEq, Repr

/-- State of the SQLite `events` table: the rows in insertion (rowid) order and
the next id `AUTOINCREMENT` will assign. -/
structure EventStore where
  rows : List Event
  nextId : Nat
deriving DecidableEq, Repr

/-- Fresh database: no rows, ids start at 1. -/
def EventStore.empty : EventStore := { rows := [], nextId := 1 }

/-- Per-field image references of one submission, as assembled by the ingestion
handler (`uploadedFiles` / `event.images` in the source): the stored filename of
each of the three image parts, or `none` when the part is absent. -/
structure StoredFiles where
  licensePlate : Option String
  vehicle : Option String
  detection : Option String
deriving DecidableEq, Repr

/-- The JavaScript `event` object the ingestion handler builds and passes to
`db.insertEvent` (and echoes in the success response). -/
structure EventData where
  channelID : String
  dateTime : String
  eventType : String
  country : Option String
  licensePlate : String
  lane : Option String
  direction : Option String
  confidenceLevel : Option String
  macAddress : Option String
  imageFile : Option String
  images : StoredFiles
deriving DecidableEq, Repr

/-- `Database.insertEvent`: one `INSERT` appending a single row; the three
attachment columns are bound from `event.images` (the legacy `imageFile` field
has no column and is not persisted); `created_at` defaults to the current
timestamp; the promise resolves with `this.lastID`. -/
def insertEvent (store : EventStore) (e : EventData) (now : String) : EventStore × Nat :=
  let row : Event := {
    id := store.nextId
    channelID := e.channelID
    dateTime := e.dateTime
    eventType := e.eventType
    country := e.country
    licensePlate := e.licensePlate
    lane := e.lane
    direction := e.direction
    confidenceLevel := e.confidenceLevel
    macAddress := e.macAddress
    licensePlateImage := e.images.licensePlate
    vehicleImage := e.images.vehicle
    detectionImage := e.images.detection
    createdAt := now }
  ({ rows := store.rows ++ [row], nextId := store.nextId + 1 }, store.nextId)

/-- JavaScript truthiness of a possibly-undefined string value (`!x` in the
source): `undefined` and the empty string are falsy, all other strings truthy. -/
def truthyStr : Option String → Bool
  | none => false
  | some s => !(s == "")

/-- JavaScript truthiness of a possibly-undefined number (`options.limit`):
`undefined` and `0` are falsy. -/
def truthyNat : Option Nat → Bool
  | none => false
  | some n => !(n == 0)

/-- Character comparison under SQLite's default `LIKE` behaviour:
case-insensitive for the ASCII range only (both sides are folded with the
ASCII-only `toLower`). -/
def likeCharEq (a b : Char) : Bool := a.toLower == b.toLower

/-- SQLite `LIKE` pattern matcher over character lists: `%` matches any
(possibly empty) sequence, `_` matches exactly one character, and every other
pattern character matches one character up to ASCII case folding. -/
def likeMatch : List Char → List Char → Bool
  | [], s => s.isEmpty
  | '%' :: p, s => s.tails.any (fun t => likeMatch p t)
  | '_' :: _, [] => false
  | '_' :: p, _ :: s => likeMatch p s
  | _ :: _, [] => false
  | c :: p, d :: s => likeCharEq c d && likeMatch p s

/-- The pattern `getAllEvents` interpolates for the licensePlate condition:
the filter value wrapped in `%` wildcards. -/
def likePattern (filter : String) : List Char := '%' :: (filter.data ++ ['%'])

/-- `licensePlate LIKE '%<filter>%'` applied to one column value. -/
def likeMatches (filter : String) (s : String) : Bool :=
  likeMatch (likePattern filter) s.data

/-- The `options` object accepted by `Database.getAllEvents`. -/
structure QueryOptions where
  licensePlate : Option String := none
  dateFrom : Option String := none
  dateTo : Option String := none
  limit : Option Nat := none
deriving DecidableEq, Repr

/-- The dynamic `conditions` array of `getAllEvents`: each truthy option pushes
one `WHERE` conjunct, in source order (licensePlate, dateFrom, dateTo).
`dateTime` comparisons are SQLite binary TEXT comparisons, i.e. lexicographic. -/
def buildConditions (o : QueryOptions) : List (Event → Bool) :=
  let conditions : List (Event → Bool) := []
  let conditions :=
    if truthyStr o.licensePlate then
      conditions ++ [fun e => likeMatches (o.licensePlate.getD "") e.licensePlate]
    else conditions
  let conditions :=
    if truthyStr o.dateFrom then
      conditions ++ [fun e => decide (o.dateFrom.getD "" ≤ e.dateTime)]
    else conditions
  let conditions :=
    if truthyStr o.dateTo then
      conditions ++ [fun e => decide (e.dateTime ≤ o.dateTo.getD "")]
    else conditions
  conditions

/-- A row satisfies the assembled `WHERE` clause (conjunction of all pushed
conditions; an empty clause accepts every row). -/
def passesFilters (o : QueryOptions) (e : Event) : Bool :=
  (buildConditions o).all (fun c => c e)

/-- Ordering required by `ORDER BY dateTime DESC`: each earlier row's dateTime
is at least each later row's. -/
def dateTimeDescOrder (a b : Event) : Prop := b.dateTime ≤ a.dateTime

instance : DecidableRel dateTimeDescOrder := fun a b =>
  inferInstanceAs (Decidable (b.dateTime ≤ a.dateTime))

/-- The `LIMIT` clause: appended only when `options.limit` is truthy (so a
limit of `0` adds no clause and the result is unbounded). -/
def applyLimit (o : QueryOptions) (l : List Event) : List Event :=
  if truthyNat o.limit then l.take (o.limit.getD 0) else l

/-- Semantics of `Database.getAllEvents store options = result`: `result` is
obtained by filtering the rows with the assembled `WHERE` clause, ordering them
by `dateTime` descending — SQLite specifies nothing about the relative order of
rows with equal `dateTime`, so any dateTime-sorted permutation is a possible
output — and applying the `LIMIT` clause. -/
def isQueryResult (store : EventStore) (o : QueryOptions) (result : List Event) : Prop :=
  ∃ sorted : List Event,
    List.Perm sorted (store.rows.filter (passesFilters o)) ∧
    sorted.Pairwise dateTimeDescOrder ∧
    result = applyLimit o sorted

/-- The row `Database.getEventStats` resolves with. -/
structure Stats where
  totalEvents : Nat
  uniqueVehicles : Nat
  activeChannels : Nat
  lastDetection : Option String
deriving DecidableEq, Repr

/-- SQL `MAX(dateTime)` aggregate: `NULL` (`none`) on an empty table, otherwise
the largest `dateTime` under SQLite's binary text collation (lexicographic). -/
def maxDateTime : List Event → Option String
  | [] => none
  | e :: es =>
    match maxDateTime es with
    | none => some e.dateTime
    | some m => some (max e.dateTime m)

/-- `Database.getEventStats`: `COUNT(*)`, `COUNT(DISTINCT licensePlate)`,
`COUNT(DISTINCT channelID)` and `MAX(dateTime)` over the whole table. -/
def getEventStats (store : EventStore) : Stats :=
  { totalEvents := store.rows.length
    uniqueVehicles := (store.rows.map Event.licensePlate).dedup.length
    activeChannels := (store.rows.map Event.channelID).dedup.length
    lastDetection := maxDateTime store.rows }

/-- One incoming multipart file part, with the fields multer's `fileFilter`,
`limits` and `diskStorage.filename` callback inspect. -/
structure FilePart where
  originalname : String
  mimetype : String
  size : Nat
deriving DecidableEq, Repr

/-- Upload-stage failures: the `fileFilter` error for a non-JPEG part, and
multer's `LIMIT_FILE_SIZE` error for an oversize part. -/
inductive UploadError
  | unsupportedMediaType
  | payloadTooLarge
deriving DecidableEq, Repr

/-- Message carried by each upload-stage error (`fileFilter`'s thrown message,
and multer's `LIMIT_FILE_SIZE` message). -/
def uploadErrorMessage : UploadError → String
  | .unsupportedMediaType => "Only JPEG images are allowed"
  | .payloadTooLarge => "File too large"

/-- The `limits.fileSize` configuration: `10 * 1024 * 1024` bytes (10 MiB). -/
def maxFileSize : Nat := 10 * 1024 * 1024

/-- Acceptance check applied to one file part: `fileFilter` rejects every
mimetype other than `image/jpeg`; the `limits.fileSize` setting rejects a part
larger than 10 MiB. -/
def processPart (f : FilePart) : Except UploadError Unit :=
  if f.mimetype != "image/jpeg" then .error .unsupportedMediaType
  else if maxFileSize < f.size then .error .payloadTooLarge
  else .ok ()

/-- Suffix of a character list starting at its last dot, when it has one. -/
def lastDotSuffix : List Char → Option (List Char)
  | [] => none
  | c :: cs =>
    match lastDotSuffix cs with
    | some e => some e
    | none => if c == '.' then some (c :: cs) else none

/-- Extension extraction as Node's `path.extname` performs it on the plain file
names the storage callback sees: the suffix from the final dot, with a lone
leading dot treated as a hidden-file marker rather than an extension. -/
def extname (name : String) : String :=
  match name.data with
  | [] => ""
  | c :: cs =>
    match lastDotSuffix (if c == '.' then cs else c :: cs) with
    | some e => String.mk e
    | none => ""

/-- Character-wise form of the `replace(/[:.]/g, '-')` sanitisation the storage
callback applies to the ISO timestamp. -/
def sanitizeTimestamp (iso : String) : String :=
  String.mk (iso.data.map (fun c => if c == ':' || c == '.' then '-' else c))

/-- File name synthesised by the `diskStorage.filename` callback:
`licensePlate` query parameter (or `unknown` when falsy), an underscore, the
sanitised timestamp, and the original file's extension. -/
def makeFilename (lpQuery : Option String) (isoNow : String) (ext : String) : String :=
  (if truthyStr lpQuery then lpQuery.getD "" else "unknown") ++ "_" ++
    sanitizeTimestamp isoNow ++ ext

/-- Name under which one accepted part is written to the uploads directory. -/
def storedName (lpQuery : Option String) (isoNow : String) (f : FilePart) : String :=
  makeFilename lpQuery isoNow (extname f.originalname)

/-- The three named file fields `upload.fields` accepts
(`licensePlatePicture.jpg`, `vehiclePicture.jpg`, `detectionPicture.jpg`),
each with `maxCount: 1`. -/
structure RequestFiles where
  licensePlatePicture : Option FilePart
  vehiclePicture : Option FilePart
  detectionPicture : Option FilePart
deriving DecidableEq, Repr

/-- Query parameters the ingestion handler destructures from `req.query`; each
is a string or `undefined`. -/
structure QueryParams where
  channelID : Option String
  dateTime : Option String
  eventType : Option String
  country : Option String
  licensePlate : Option String
  lane : Option String
  direction : Option String
  confidenceLevel : Option String
  macAddress : Option String
deriving DecidableEq, Repr

/-- One inbound `POST` submission: its query parameters and image parts. -/
structure IncomingRequest where
  query : QueryParams
  files : RequestFiles
deriving DecidableEq, Repr

/-- Multer's handling of one named field: an absent part stores nothing; a
present part is checked by `processPart` and, when accepted, written to disk
under its synthesised name (appended to the list of written files).  A rejected
part aborts the request, with the files written so far left on disk. -/
def storeFieldPart (lpQuery : Option String) (isoNow : String) (part : Option FilePart)
    (written : List String) :
    Except (UploadError × List String) (Option String × List String) :=
  match part with
  | none => .ok (none, written)
  | some f =>
    match processPart f with
    | .error e => .error (e, written)
    | .ok _ =>
      .ok (some (storedName lpQuery isoNow f), written ++ [storedName lpQuery isoNow f])

/-- The `upload.fields` middleware stage: processes the three named fields,
writing each accepted part to storage *before* the route handler (and hence
before any parameter validation) runs.  Returns the per-field stored names and
the list of files written, or the first upload error together with the files
already written when it occurred. -/
def processFiles (req : IncomingRequest) (isoNow : String) :
    Except (UploadError × List String) (StoredFiles × List String) :=
  match storeFieldPart req.query.licensePlate isoNow req.files.licensePlatePicture [] with
  | .error e => .error e
  | .ok (lp, w1) =>
    match storeFieldPart req.query.licensePlate isoNow req.files.vehiclePicture w1 with
    | .error e => .error e
    | .ok (veh, w2) =>
      match storeFieldPart req.query.licensePlate isoNow req.files.detectionPicture w2 with
      | .error e => .error e
      | .ok (det, w3) => .ok ({ licensePlate := lp, vehicle := veh, detection := det }, w3)

/-- The handler's required-parameter test,
`!channelID || !dateTime || !eventType || !licensePlate` (JavaScript
truthiness, in source order). -/
def missingRequired (q : QueryParams) : Bool :=
  !truthyStr q.channelID || !truthyStr q.dateTime ||
    !truthyStr q.eventType || !truthyStr q.licensePlate

/-- `uploadedFiles.licensePlate || uploadedFiles.vehicle ||
uploadedFiles.detection`: the first available image in the fixed order
license-plate, vehicle, detection. -/
def firstImage (files : StoredFiles) : Option String :=
  match files.licensePlate with
  | some n => some n
  | none =>
    match files.vehicle with
    | some n => some n
    | none => files.detection

/-- HTTP responses the ingestion endpoint can produce: 200 with the echoed
event, 400 with an error body, or 500 from the error-handling middleware. -/
inductive Response
  | success (event : EventData)
  | badRequest (error : String)
  | serverError (message : String)
deriving DecidableEq, Repr

/-- Status code of each response shape. -/
def Response.status : Response → Nat
  | .success _ => 200
  | .badRequest _ => 400
  | .serverError _ => 500

/-- The `app.post(['/', '/hik'])` route handler body, run after the upload
middleware: validate the four required parameters (responding 400 without
touching the store on failure), otherwise build the event object — all three
per-field image names, plus the first available image as the legacy
`imageFile` — insert it, and respond 200 echoing the event. -/
def handlePost (store : EventStore) (q : QueryParams) (files : StoredFiles)
    (now : String) : Response × EventStore :=
  if missingRequired q then
    (.badRequest "Missing required parameters", store)
  else
    let event : EventData := {
      channelID := q.channelID.getD ""
      dateTime := q.dateTime.getD ""
      eventType := q.eventType.getD ""
      country := q.country
      licensePlate := q.licensePlate.getD ""
      lane := q.lane
      direction := q.direction
      confidenceLevel := q.confidenceLevel
      macAddress := q.macAddress
      imageFile := firstImage files
      images := files }
    (.success event, (insertEvent store event now).1)

/-- Whole ingestion pipeline for one submission: the `upload.fields` middleware
runs first and writes accepted image parts to storage; an upload error skips
the handler and reaches the error middleware (status 500 with the error's
message); otherwise the route handler validates and inserts.  The result is the
response, the resulting store, and the files written to the uploads
directory. -/
def processRequest (store : EventStore) (req : IncomingRequest) (isoNow : String) :
    Response × EventStore × List String :=
  match processFiles req isoNow with
  | .error (e, written) => (.serverError (uploadErrorMessage e), store, written)
  | .ok (files, written) =>
    let hr := handlePost store req.query files isoNow
    (hr.1, hr.2, written)

/-- Query parameters of the dashboard `GET '/'` request.  A `limit` parameter
is carried here only to state that the handler never reads it. -/
structure DashboardQuery where
  licensePlate : Option String := none
  dateFrom : Option String := none
  dateTo : Option String := none
  limit : Option Nat := none
deriving DecidableEq, Repr

/-- The `filters` object the dashboard handler passes to `db.getAllEvents`: the
three optional filter parameters forwarded verbatim, and a hard-coded
`limit: 100`. -/
def dashboardFilters (q : DashboardQuery) : QueryOptions :=
  { licensePlate := q.licensePlate
    dateFrom := q.dateFrom
    dateTo := q.dateTo
    limit := some 100 }

/-- Semantics of one dashboard request: the pair handed to the HTML renderer is
a `getAllEvents` outcome for the hard-capped filters together with the
`getEventStats` row (the two are requested together via `Promise.all`). -/
def isDashboardResult (store : EventStore) (q : DashboardQuery)
    (r : List Event × Stats) : Prop :=
  isQueryResult store (dashboardFilters q) r.1 ∧ r.2 = getEventStats store

/-- Plain (case-sensitive) containment of `needle` as a prefix of `hay`. -/
def seqStarts : List Char → List Char → Bool
  | _, [] => true
  | [], _ :: _ => false
  | h :: hs, n :: ns => h == n && seqStarts hs ns

/-- Plain (case-sensitive) containment of `needle` as a contiguous
subsequence of `hay`. -/
def seqContains : List Char → List Char → Bool
  | [], ns => seqStarts [] ns
  | h :: hs, ns => seqStarts (h :: hs) ns || seqContains hs ns

/-- `needle` occurs verbatim (case-sensitively) inside `hay`. -/
def isSubstring (needle hay : String) : Bool :=
  seqContains hay.data needle.data

/-- Specification-side characterisation of a maximum: `none` exactly on the
empty list, otherwise an element every list entry is `≤`. -/
def IsLexMax (l : List String) : Option String → Prop
  | none => l = []
  | some v => v ∈ l ∧ ∀ d ∈ l, d ≤ v

/-- The tie-break the specification asserts: whenever one event precedes
another with the same `dateTime` in a result list, the earlier one has the
larger id. -/
def tiesIdDescending (l : List Event) : Prop :=
  l.Pairwise (fun a b => a.dateTime = b.dateTime → b.id < a.id)

/-- Specification-side reading of the query filter as a conjunction of the
supplied (truthy) filter fields: the `LIKE`-pattern match on the plate and the
two inclusive lexicographic `dateTime` bounds. -/
def satisfiesFilters (o : QueryOptions) (e : Event) : Prop :=
  (truthyStr o.licensePlate = true →
    likeMatches (o.licensePlate.getD "") e.licensePlate = true) ∧
  (truthyStr o.dateFrom = true → o.dateFrom.getD "" ≤ e.dateTime) ∧
  (truthyStr o.dateTo = true → e.dateTime ≤ o.dateTo.getD "")

/-! ### Concrete fixtures used by witnesses and counterexamples -/

/-- A persisted row with a lower-case plate. -/
def evA : Event :=
  { id := 1, channelID := "CH1", dateTime := "2024-01-01T10:00:00", eventType := "ANPR",
    country := none, licensePlate := "abc", lane := none, direction := none,
    confidenceLevel := none, macAddress := none, licensePlateImage := none,
    vehicleImage := none, detectionImage := none, createdAt := "t0" }

/-- A second row with the same `dateTime` as `evA` and a larger id. -/
def evB : Event := { evA with id := 2, licensePlate := "XYZ" }

/-- Store holding only `evA`. -/
def store1 : EventStore := { rows := [evA], nextId := 2 }

/-- Store holding `evA` then `evB` (equal `dateTime`, ids 1 and 2). -/
def store2 : EventStore := { rows := [evA, evB], nextId := 3 }

/-- An acceptable JPEG part. -/
def partJpeg : FilePart :=
  { originalname := "licensePlatePicture.jpg", mimetype := "image/jpeg", size := 1024 }

/-- A PNG part, rejected by the `fileFilter`. -/
def partPng : FilePart :=
  { originalname := "licensePlatePicture.png", mimetype := "image/png", size := 1024 }

/-- A JPEG part one byte over the 10 MiB limit. -/
def partBig : FilePart :=
  { originalname := "licensePlatePicture.jpg", mimetype := "image/jpeg",
    size := 10 * 1024 * 1024 + 1 }

/-- Query parameters with `channelID` absent and the other three required
fields present. -/
def qMissChannel : QueryParams :=
  { channelID := none, dateTime := some "2024-01-01T10:00:00", eventType := some "ANPR",
    country := none, licensePlate := some "AB12CDE", lane := none, direction := none,
    confidenceLevel := none, macAddress := none }

/-- Fully valid query parameters. -/
def qValid : QueryParams := { qMissChannel with channelID := some "CH1" }

/-- A submission with no image parts. -/
def noFiles : RequestFiles :=
  { licensePlatePicture := none, vehiclePicture := none, detectionPicture := none }

/-- Missing `channelID`, no image parts. -/
def reqMissNoFiles : IncomingRequest := { query := qMissChannel, files := noFiles }

/-- Missing `channelID`, one acceptable JPEG part. -/
def reqMissJpeg : IncomingRequest :=
  { query := qMissChannel, files := { noFiles with licensePlatePicture := some partJpeg } }

/-- Missing `channelID`, one PNG part (rejected by the upload middleware). -/
def reqMissPng : IncomingRequest :=
  { query := qMissChannel, files := { noFiles with licensePlatePicture := some partPng } }

/-- A fully valid submission with one JPEG license-plate part. -/
def reqValid : IncomingRequest :=
  { query := qValid, files := { noFiles with licensePlatePicture := some partJpeg } }

/-- A fixed upload timestamp. -/
def ts0 : String := "2024-01-01T10:00:00.000Z"

/-! ### Helper lemmas -/

theorem pairwiseDesc_one (a : Event) : List.Pairwise dateTimeDescOrder [a] :=
  List.Pairwise.cons (fun x hx => absurd hx (List.not_mem_nil x)) List.Pairwise.nil

theorem pairwiseDesc_two {a b : Event} (h : b.dateTime ≤ a.dateTime) :
    List.Pairwise dateTimeDescOrder [a, b] := by
  refine List.Pairwise.cons ?_ (pairwiseDesc_one b)
  intro x hx
  rcases List.mem_singleton.mp hx with rfl
  exact h

/-- The assembled `WHERE` clause accepts a row exactly when the row satisfies
the conjunction of the truthy filter fields. -/
theorem passesFilters_iff (o : QueryOptions) (e : Event) :
    passesFilters o e = true ↔ satisfiesFilters o e := by
  unfold passesFilters satisfiesFilters buildConditions
  cases h1 : truthyStr o.licensePlate <;> cases h2 : truthyStr o.dateFrom <;>
    cases h3 : truthyStr o.dateTo <;>
      simp [h1, h2, h3, and_assoc]

/-- Every query outcome is sorted by `dateTime` descending. -/
theorem isQueryResult_pairwise {store : EventStore} {o : QueryOptions}
    {result : List Event} (h : isQueryResult store o result) :
    result.Pairwise dateTimeDescOrder := by
  obtain ⟨sorted, _, hsorted, hres⟩ := h
  subst hres
  unfold applyLimit
  split
  · exact List.Pairwise.sublist (List.take_sublist _ _) hsorted
  · exact hsorted

/-- Every returned event is a stored row satisfying the filter conjunction. -/
theorem isQueryResult_mem {store : EventStore} {o : QueryOptions}
    {result : List Event} (h : isQueryResult store o result) {e : Event}
    (he : e ∈ result) : e ∈ store.rows ∧ satisfiesFilters o e := by
  obtain ⟨sorted, hperm, _, hres⟩ := h
  subst hres
  have hs : e ∈ sorted := by
    unfold applyLimit at he
    split at he
    · exact (List.take_sublist _ _).subset he
    · exact he
  have := hperm.mem_iff.mp hs
  rw [List.mem_filter] at this
  exact ⟨this.1, (passesFilters_iff o e).mp this.2⟩

/-- With a falsy `limit` the outcome is a permutation of the filtered rows, so
membership is exact. -/
theorem isQueryResult_mem_iff {store : EventStore} {o : QueryOptions}
    {result : List Event} (h : isQueryResult store o result)
    (hl : truthyNat o.limit = false) (e : Event) :
    e ∈ result ↔ e ∈ store.rows ∧ satisfiesFilters o e := by
  obtain ⟨sorted, hperm, _, hres⟩ := h
  subst hres
  unfold applyLimit
  rw [hl]
  simp only [Bool.false_eq_true, if_false]
  rw [hperm.mem_iff, List.mem_filter, passesFilters_iff]

/-- The `MAX(dateTime)` aggregate is `NULL` exactly on an empty table and
otherwise a maximal `dateTime`. -/
theorem maxDateTime_isLexMax (rows : List Event) :
    IsLexMax (rows.map Event.dateTime) (maxDateTime rows) := by
  induction rows with
  | nil => rfl
  | cons e es ih =>
    cases hm : maxDateTime es with
    | none =>
      rw [hm] at ih
      have hes : es.map Event.dateTime = [] := ih
      simp only [List.map_cons, maxDateTime, hm, hes]
      exact ⟨List.mem_singleton.mpr rfl, by
        intro d hd
        rcases List.mem_singleton.mp hd with rfl
        exact le_refl _⟩
    | some m =>
      rw [hm] at ih
      obtain ⟨hmem, hle⟩ := ih
      simp only [List.map_cons, maxDateTime, hm]
      refine ⟨?_, ?_⟩
      · rcases max_choice e.dateTime m with hmax | hmax <;> rw [hmax]
        · exact List.mem_cons_self _ _
        · exact List.mem_cons_of_mem _ hmem
      · intro d hd
        rcases List.mem_cons.mp hd with rfl | hd'
        · exact le_max_left _ _
        · exact le_trans (hle d hd') (le_max_right _ _)

/-- `firstImage` is the left-biased choice among the three references. -/
theorem firstImage_eq_or (files : StoredFiles) :
    firstImage files = (files.licensePlate).or ((files.vehicle).or files.detection) := by
  unfold firstImage
  cases files.licensePlate <;> cases files.vehicle <;> cases files.detection <;> rfl

/-- Inversion of one field's upload handling on success. -/
theorem storeFieldPart_ok_inv {lpq : Option String} {isoNow : String}
    {part : Option FilePart} {w : List String} {name : Option String} {w' : List String}
    (h : storeFieldPart lpq isoNow part w = .ok (name, w')) :
    name = part.map (storedName lpq isoNow) ∧
    w' = w ++ (part.map (storedName lpq isoNow)).toList := by
  cases part with
  | none =>
    simp only [storeFieldPart, Except.ok.injEq, Prod.mk.injEq] at h
    simp [← h.1, ← h.2]
  | some f =>
    simp only [storeFieldPart] at h
    cases hp : processPart f with
    | error e => rw [hp] at h; cases h
    | ok u =>
      rw [hp] at h
      simp only [Except.ok.injEq, Prod.mk.injEq] at h
      simp [← h.1, ← h.2]

/-- Inversion of the whole upload middleware stage on success: each per-field
reference is the corresponding part's stored name, and the written files are
exactly the stored names of the present parts, in field order. -/
theorem processFiles_ok_inv {req : IncomingRequest} {isoNow : String}
    {files : StoredFiles} {written : List String}
    (h : processFiles req isoNow = .ok (files, written)) :
    files.licensePlate =
      req.files.licensePlatePicture.map (storedName req.query.licensePlate isoNow) ∧
    files.vehicle =
      req.files.vehiclePicture.map (storedName req.query.licensePlate isoNow) ∧
    files.detection =
      req.files.detectionPicture.map (storedName req.query.licensePlate isoNow) ∧
    written =
      (req.files.licensePlatePicture.map (storedName req.query.licensePlate isoNow)).toList ++
      (req.files.vehiclePicture.map (storedName req.query.licensePlate isoNow)).toList ++
      (req.files.detectionPicture.map (storedName req.query.licensePlate isoNow)).toList := by
  unfold processFiles at h
  cases h1 : storeFieldPart req.query.licensePlate isoNow req.files.licensePlatePicture [] with
  | error e => rw [h1] at h; cases h
  | ok lw =>
    obtain ⟨lp, w1⟩ := lw
    rw [h1] at h
    dsimp only at h
    cases h2 : storeFieldPart req.query.licensePlate isoNow req.files.vehiclePicture w1 with
    | error e => rw [h2] at h; cases h
    | ok vw =>
      obtain ⟨veh, w2⟩ := vw
      rw [h2] at h
      dsimp only at h
      cases h3 : storeFieldPart req.query.licensePlate isoNow req.files.detectionPicture w2 with
      | error e => rw [h3] at h; cases h
      | ok dw =>
        obtain ⟨det, w3⟩ := dw
        rw [h3] at h
        dsimp only at h
        obtain ⟨hlp, hw1⟩ := storeFieldPart_ok_inv h1
        obtain ⟨hveh, hw2⟩ := storeFieldPart_ok_inv h2
        obtain ⟨hdet, hw3⟩ := storeFieldPart_ok_inv h3
        cases h
        refine ⟨hlp, hveh, hdet, ?_⟩
        rw [hw3, hw2, hw1]
        simp [List.append_assoc]

/-- Rows appended by one insert: the three attachment columns are copied from
the event object's `images`. -/
theorem insertEvent_rows (store : EventStore) (e : EventData) (now : String) :
    ∃ row : Event, (insertEvent store e now).1.rows = store.rows ++ [row] ∧
      row.licensePlateImage = e.images.licensePlate ∧
      row.vehicleImage = e.images.vehicle ∧
      row.detectionImage = e.images.detection :=
  ⟨_, rfl, rfl, rfl, rfl⟩

/-! ### Claims -/

/-- C1 (corrected): for every submission missing a required parameter, no event
row is ever inserted, and whenever the upload middleware accepts all image
parts (in particular when none are present) the response is status 400 with
body error `Missing required parameters`.  (As stated over *all* such
submissions the claim fails: a rejected image part produces a 500 instead —
see the counterexample.) -/
theorem C1_missing_param_rejected (store : EventStore) (req : IncomingRequest)
    (isoNow : String) (hmiss : missingRequired req.query = true) :
    (processRequest store req isoNow).2.1 = store ∧
    (∀ files written, processFiles req isoNow = .ok (files, written) →
      (processRequest store req isoNow).1 = .badRequest "Missing required parameters" ∧
      (processRequest store req isoNow).1.status = 400) := by
  constructor
  · unfold processRequest
    cases hf : processFiles req isoNow with
    | error ew => rfl
    | ok fw =>
      obtain ⟨files, written⟩ := fw
      dsimp only
      simp only [handlePost, hmiss, if_true]
  · intro files written hf
    unfold processRequest
    rw [hf]
    dsimp only
    simp only [handlePost, hmiss, if_true]
    exact ⟨trivial, rfl⟩

/-- C1 witness: a concrete submission missing `channelID` with no image parts
gets the 400 response and leaves the store unchanged. -/
theorem C1_missing_param_rejected_witness :
    (processRequest EventStore.empty reqMissNoFiles ts0).2.1 = EventStore.empty ∧
    (processRequest EventStore.empty reqMissNoFiles ts0).1 =
      .badRequest "Missing required parameters" := by
  have h := C1_missing_param_rejected EventStore.empty reqMissNoFiles ts0 (by decide)
  exact ⟨h.1, (h.2 (StoredFiles.mk none none none) [] rfl).1⟩

/-- C1 counterexample: a submission missing `channelID` that also carries a
PNG image part is answered 500 (the upload middleware rejects the part before
the handler's validation runs), not 400 as the claim states. -/
theorem C1_counterexample :
    missingRequired reqMissPng.query = true ∧
    (processRequest EventStore.empty reqMissPng ts0).1 =
      .serverError "Only JPEG images are allowed" ∧
    (processRequest EventStore.empty reqMissPng ts0).1.status = 500 ∧
    (processRequest EventStore.empty reqMissPng ts0).1 ≠
      .badRequest "Missing required parameters" := by decide

/-- C2 (corrected): attachment storage happens *before* validation — the
`upload.fields` middleware writes every accepted image part to storage before
the handler's required-field check runs.  A submission failing that check
leaves the event store unchanged, but each accepted image part has already
been written (its stored name is among the written files). -/
theorem C2_attachments_precede_validation (store : EventStore) (req : IncomingRequest)
    (isoNow : String) (files : StoredFiles) (written : List String)
    (hmiss : missingRequired req.query = true)
    (hfiles : processFiles req isoNow = .ok (files, written)) :
    (processRequest store req isoNow).2.1 = store ∧
    (processRequest store req isoNow).2.2 = written ∧
    (∀ f, req.files.licensePlatePicture = some f →
      storedName req.query.licensePlate isoNow f ∈ written) := by
  have hred : processRequest store req isoNow =
      ((handlePost store req.query files isoNow).1,
        (handlePost store req.query files isoNow).2, written) := by
    unfold processRequest
    rw [hfiles]
  refine ⟨?_, ?_, ?_⟩
  · rw [hred]
    simp only [handlePost, hmiss, if_true]
  · rw [hred]
  · intro f hf
    obtain ⟨_, _, _, hw⟩ := processFiles_ok_inv hfiles
    rw [hw, hf]
    simp

/-- C2 witness: the concrete failed submission `reqMissJpeg` leaves the store
unchanged while its JPEG part's stored name is among the written files. -/
theorem C2_attachments_precede_validation_witness :
    (processRequest EventStore.empty reqMissJpeg ts0).2.1 = EventStore.empty ∧
    storedName reqMissJpeg.query.licensePlate ts0 partJpeg ∈
      (processRequest EventStore.empty reqMissJpeg ts0).2.2 := by
  have h := C2_attachments_precede_validation EventStore.empty reqMissJpeg ts0
    (StoredFiles.mk (some (storedName reqMissJpeg.query.licensePlate ts0 partJpeg)) none none)
    [storedName reqMissJpeg.query.licensePlate ts0 partJpeg] (by decide) rfl
  refine ⟨h.1, ?_⟩
  rw [h.2.1]
  exact h.2.2 partJpeg rfl

/-- C2 counterexample: a submission with a valid JPEG part but a missing
`channelID` fails validation, yet a file has been written to the attachment
store — refuting the claim that a failed ingestion leaves the attachment store
unchanged. -/
theorem C2_counterexample :
    missingRequired reqMissJpeg.query = true ∧
    (processRequest EventStore.empty reqMissJpeg ts0).1.status = 400 ∧
    (processRequest EventStore.empty reqMissJpeg ts0).2.1 = EventStore.empty ∧
    (processRequest EventStore.empty reqMissJpeg ts0).2.2 ≠ [] := by decide

/-- C3 (corrected): every query outcome is ordered by `dateTime` descending;
the `ORDER BY` clause has no tie-breaker, so the relative order of events with
equal `dateTime` is unspecified (the claimed id-descending tie order fails —
see the counterexample). -/
theorem C3_query_order (store : EventStore) (o : QueryOptions) (result : List Event)
    (h : isQueryResult store o result) :
    result.Pairwise dateTimeDescOrder :=
  isQueryResult_pairwise h

/-- C3 witness: a concrete two-row outcome is dateTime-descending sorted. -/
theorem C3_query_order_witness : List.Pairwise dateTimeDescOrder [evA, evB] :=
  C3_query_order store2 {} [evA, evB]
    ⟨[evA, evB], by decide, pairwiseDesc_two (le_refl _), rfl⟩

/-- C3 counterexample: with two stored events of equal `dateTime` and ids 1, 2
the list `[evA, evB]` (ids ascending) is a possible unfiltered query outcome,
so ties need not appear in id-descending order. -/
theorem C3_counterexample :
    isQueryResult store2 {} [evA, evB] ∧
    evA.dateTime = evB.dateTime ∧ evA.id < evB.id ∧
    ¬ tiesIdDescending [evA, evB] := by
  refine ⟨⟨[evA, evB], by decide, pairwiseDesc_two (le_refl _), rfl⟩, rfl, by decide, ?_⟩
  intro hpair
  have := (List.pairwise_cons.mp hpair).1 evB (List.mem_singleton.mpr rfl) rfl
  exact absurd this (by decide)

/-- C4 (corrected): every returned event is a stored row satisfying the
conjunction of the truthy filter fields — where the plate filter is SQLite
`LIKE` matching of the pattern `%filter%` (ASCII-case-insensitive, with `%`
and `_` in the filter acting as wildcards), not plain substring containment —
the bounds are inclusive lexicographic comparisons, membership is exact when
no limit applies, and a truthy limit caps the result length. -/
theorem C4_query_filter_semantics (store : EventStore) (o : QueryOptions)
    (result : List Event) (h : isQueryResult store o result) :
    (∀ e ∈ result, e ∈ store.rows ∧ satisfiesFilters o e) ∧
    (truthyNat o.limit = false →
      ∀ e, e ∈ result ↔ e ∈ store.rows ∧ satisfiesFilters o e) ∧
    (truthyNat o.limit = true → result.length ≤ o.limit.getD 0) := by
  refine ⟨fun e he => isQueryResult_mem h he,
    fun hl e => isQueryResult_mem_iff h hl e, ?_⟩
  intro hl
  obtain ⟨sorted, _, _, hres⟩ := h
  subst hres
  unfold applyLimit
  rw [hl]
  simp only [if_true]
  exact List.length_take_le _ _

/-- C4 witness: a concrete unfiltered outcome's head row is a stored row
satisfying the (empty) filter conjunction. -/
theorem C4_query_filter_semantics_witness :
    evA ∈ store2.rows ∧ satisfiesFilters {} evA :=
  (C4_query_filter_semantics store2 {} [evA, evB]
    ⟨[evA, evB], by decide, pairwiseDesc_two (le_refl _), rfl⟩).1 evA (by decide)

/-- C4 counterexample: with the single stored plate `abc` and the filter
`ABC`, the event is returned (SQLite `LIKE` is ASCII-case-insensitive) even
though `ABC` is not a substring of `abc` — refuting the plain-substring
reading of the claim. -/
theorem C4_counterexample :
    isQueryResult store1 { licensePlate := some "ABC" } [evA] ∧
    isSubstring "ABC" evA.licensePlate = false :=
  ⟨⟨[evA], by decide, pairwiseDesc_one evA, rfl⟩, by decide⟩

/-- C5 (confirmed): `getEventStats` returns the row count, the number of
distinct licensePlate values, the number of distinct channelID values, and the
lexicographic maximum of the `dateTime` strings (`NULL` on an empty store). -/
theorem C5_stats_aggregates (store : EventStore) :
    (getEventStats store).totalEvents = store.rows.length ∧
    (getEventStats store).uniqueVehicles = (store.rows.map Event.licensePlate).toFinset.card ∧
    (getEventStats store).activeChannels = (store.rows.map Event.channelID).toFinset.card ∧
    IsLexMax (store.rows.map Event.dateTime) (getEventStats store).lastDetection :=
  ⟨rfl, (List.card_toFinset _).symm, (List.card_toFinset _).symm,
    maxDateTime_isLexMax store.rows⟩

/-- C6 (confirmed): for every valid submission whose upload stage succeeded,
exactly one row is appended whose three attachment references are the stored
names of the corresponding image parts (or null for an absent part), the
echoed event's legacy `imageFile` is the first of the three references in the
fixed order license-plate, vehicle, detection, and a submission with zero
images inserts successfully with all three references null. -/
theorem C6_attachment_references (store : EventStore) (req : IncomingRequest)
    (isoNow : String) (files : StoredFiles) (written : List String)
    (hvalid : missingRequired req.query = false)
    (hfiles : processFiles req isoNow = .ok (files, written)) :
    ∃ row : Event, ∃ ev : EventData,
      (processRequest store req isoNow).1 = .success ev ∧
      (processRequest store req isoNow).2.1.rows = store.rows ++ [row] ∧
      row.licensePlateImage =
        req.files.licensePlatePicture.map (storedName req.query.licensePlate isoNow) ∧
      row.vehicleImage =
        req.files.vehiclePicture.map (storedName req.query.licensePlate isoNow) ∧
      row.detectionImage =
        req.files.detectionPicture.map (storedName req.query.licensePlate isoNow) ∧
      ev.imageFile = (row.licensePlateImage).or ((row.vehicleImage).or row.detectionImage) ∧
      (req.files.licensePlatePicture = none → req.files.vehiclePicture = none →
        req.files.detectionPicture = none →
        row.licensePlateImage = none ∧ row.vehicleImage = none ∧
        row.detectionImage = none ∧ ev.imageFile = none) := by
  obtain ⟨hlp, hveh, hdet, _⟩ := processFiles_ok_inv hfiles
  have hred : processRequest store req isoNow =
      ((handlePost store req.query files isoNow).1,
        (handlePost store req.query files isoNow).2, written) := by
    unfold processRequest
    rw [hfiles]
  have hpost : ∃ ev : EventData, handlePost store req.query files isoNow =
      (.success ev, (insertEvent store ev isoNow).1) ∧
      ev.images = files ∧ ev.imageFile = firstImage files := by
    unfold handlePost
    rw [hvalid]
    exact ⟨_, rfl, rfl, rfl⟩
  obtain ⟨ev, hps, himg, hfst⟩ := hpost
  obtain ⟨row, hrows, hr1, hr2, hr3⟩ := insertEvent_rows store ev isoNow
  have e1 : row.licensePlateImage =
      req.files.licensePlatePicture.map (storedName req.query.licensePlate isoNow) := by
    rw [hr1, himg]; exact hlp
  have e2 : row.vehicleImage =
      req.files.vehiclePicture.map (storedName req.query.licensePlate isoNow) := by
    rw [hr2, himg]; exact hveh
  have e3 : row.detectionImage =
      req.files.detectionPicture.map (storedName req.query.licensePlate isoNow) := by
    rw [hr3, himg]; exact hdet
  refine ⟨row, ev, ?_, ?_, e1, e2, e3, ?_, ?_⟩
  · rw [hred, hps]
  · rw [hred]
    dsimp only
    rw [hps]
    dsimp only
    exact hrows
  · rw [hfst, hr1, hr2, hr3, himg]
    exact firstImage_eq_or files
  · intro h1 h2 h3
    rw [h1] at e1
    rw [h2] at e2
    rw [h3] at e3
    simp only [Option.map_none'] at e1 e2 e3
    refine ⟨e1, e2, e3, ?_⟩
    rw [hfst, firstImage_eq_or, himg] at *
    rw [← hr1, ← hr2, ← hr3] at *
    simp [e1, e2, e3]

/-- C6 witness: the concrete valid submission with one JPEG part appends
exactly one row. -/
theorem C6_attachment_references_witness :
    (processRequest EventStore.empty reqValid ts0).2.1.rows.length = 1 := by
  obtain ⟨row, ev, hsucc, hrows, _⟩ :=
    C6_attachment_references EventStore.empty reqValid ts0
      (StoredFiles.mk (some (storedName reqValid.query.licensePlate ts0 partJpeg)) none none)
      [storedName reqValid.query.licensePlate ts0 partJpeg]
      (by decide) rfl
  rw [hrows]
  rfl

/-- C7 (confirmed): the list the dashboard hands to the renderer is capped at
100 events, `getEventStats` is always requested alongside it, and the filters
built by the handler are independent of any caller-supplied limit. -/
theorem C7_dashboard_cap_and_stats (store : EventStore) (q : DashboardQuery)
    (r : List Event × Stats) (h : isDashboardResult store q r) :
    r.1.length ≤ 100 ∧ r.2 = getEventStats store ∧
    ∀ n : Option Nat, dashboardFilters { q with limit := n } = dashboardFilters q := by
  obtain ⟨⟨sorted, _, _, hres⟩, hstats⟩ := h
  refine ⟨?_, hstats, fun n => rfl⟩
  rw [hres]
  show (sorted.take 100).length ≤ 100
  exact List.length_take_le _ _

/-- C7 witness: a concrete dashboard outcome over `store1` is within the cap. -/
theorem C7_dashboard_cap_and_stats_witness :
    (([evA], getEventStats store1) : List Event × Stats).1.length ≤ 100 :=
  (C7_dashboard_cap_and_stats store1 {} ([evA], getEventStats store1)
    ⟨⟨[evA], by decide, pairwiseDesc_one evA, rfl⟩, rfl⟩).1

/-- C8 (confirmed): the upload stage rejects a non-JPEG part with the
unsupported-media-type error, rejects a JPEG part larger than 10 MiB with the
payload-too-large error, never accepts an oversize part, and accepts (and
hence writes) a part exactly when it is a JPEG of at most 10 MiB. -/
theorem C8_upload_acceptance (f : FilePart) :
    (f.mimetype ≠ "image/jpeg" → processPart f = .error .unsupportedMediaType) ∧
    (f.mimetype = "image/jpeg" → maxFileSize < f.size →
      processPart f = .error .payloadTooLarge) ∧
    (maxFileSize < f.size → processPart f ≠ .ok ()) ∧
    (processPart f = .ok () ↔ f.mimetype = "image/jpeg" ∧ f.size ≤ maxFileSize) ∧
    (∀ lpq isoNow w res, storeFieldPart lpq isoNow (some f) w = .ok res →
      f.mimetype = "image/jpeg" ∧ f.size ≤ maxFileSize) := by
  by_cases hm : f.mimetype = "image/jpeg" <;> by_cases hs : maxFileSize < f.size <;>
    simp [processPart, storeFieldPart, hm, hs, Nat.not_lt, bne_iff_ne]
  omega

/-- C9 (corrected): the required-field check fails exactly when one of the
four fields (tested in the order channelID, dateTime, eventType, licensePlate)
is absent or empty, and the resulting response carries the single fixed error
`Missing required parameters` — it does not name the missing field (see the
counterexample). -/
theorem C9_validation_generic (q : QueryParams) (store : EventStore)
    (files : StoredFiles) (now : String) :
    (missingRequired q = true ↔
      (truthyStr q.channelID = false ∨ truthyStr q.dateTime = false ∨
       truthyStr q.eventType = false ∨ truthyStr q.licensePlate = false)) ∧
    (missingRequired q = true →
      (handlePost store q files now).1 = .badRequest "Missing required parameters") := by
  constructor
  · unfold missingRequired
    simp [Bool.or_eq_true, Bool.not_eq_true', or_assoc]
  · intro h
    simp [handlePost, h]

/-- C9 counterexample: for a submission whose first missing field is
`channelID`, the error body is the generic `Missing required parameters`,
which does not contain the field name `channelID` — refuting the claim that
the failure names the first missing field. -/
theorem C9_counterexample :
    missingRequired reqMissNoFiles.query = true ∧
    reqMissNoFiles.query.channelID = none ∧
    (processRequest EventStore.empty reqMissNoFiles ts0).1 =
      .badRequest "Missing required parameters" ∧
    isSubstring "channelID" "Missing required parameters" = false := by decide

/-- C10 (confirmed): an empty-string `licensePlate`, `dateFrom` or `dateTo`
filter, or a `limit` of 0, is falsy, so the corresponding WHERE condition or
LIMIT clause is omitted and the query behaves exactly as if the field were
absent. -/
theorem C10_falsy_filters_ignored (store : EventStore) (o : QueryOptions)
    (result : List Event) :
    (isQueryResult store { o with licensePlate := some "" } result ↔
      isQueryResult store { o with licensePlate := none } result) ∧
    (isQueryResult store { o with dateFrom := some "" } result ↔
      isQueryResult store { o with dateFrom := none } result) ∧
    (isQueryResult store { o with dateTo := some "" } result ↔
      isQueryResult store { o with dateTo := none } result) ∧
    (isQueryResult store { o with limit := some 0 } result ↔
      isQueryResult store { o with limit := none } result) :=
  ⟨Iff.rfl, Iff.rfl, Iff.rfl, Iff.rfl⟩

end HikCam
